import Mathlib

/-!
Verification of the TwinSpark local HTTPS static file server
(src/https-server.py) against its design specification.

The script subclasses `http.server.SimpleHTTPRequestHandler`:
the override `end_headers` injects three CORS headers into every response,
and `do_OPTIONS` answers CORS preflights directly.  `main` checks that the
certificate pair exists, binds a listener on port 3000, wraps it in a TLS
context and runs the accept loop until a KeyboardInterrupt.

Request handling is embedded as the list of observable events a handler
writes on the wire; `main` is embedded as the list of observable actions it
performs as a function of the environment.  Behavior of the Python standard
library that the script inherits (static-file resolution, the TLS context,
the interpreter exit on an uncaught exception) is not part of src/ and is
modelled from the spec where a claim depends on it; such definitions say so
in their doc comments.
-/

namespace TwinSpark

/-- Raw bytes on the wire, abstracted as natural numbers. -/
abbrev Bytes := List Nat

/-- One observable event while a handler writes one response. -/
inductive REvent where
  | statusLine (code : Nat)
  | header (name value : String)
  | endOfHeaders
  | body (bytes : Bytes)
  deriving DecidableEq, Repr

/-- The three CORS headers, with their literal values, that
`CORSHTTPRequestHandler.end_headers` sends (src/https-server.py
lines 10-12), in source order. -/
def corsHeaders : List (String × String) :=
  [("Access-Control-Allow-Origin", "*"),
   ("Access-Control-Allow-Methods", "GET, POST, PUT, DELETE, OPTIONS"),
   ("Access-Control-Allow-Headers", "Content-Type, Authorization")]

/-- Embedding of the override `CORSHTTPRequestHandler.end_headers`
(lines 9-13): send the three CORS headers, then fall through to the base
class `end_headers`, which terminates the header block. -/
def end_headers_CORS : List REvent :=
  corsHeaders.map (fun p => REvent.header p.1 p.2) ++ [REvent.endOfHeaders]

/-- Modelled from the spec: `send_response` of the base handler (not in
src/) writes the status line; per the spec's OPTIONS contract ("headers
above only") no automatic headers are modelled. -/
def send_response (code : Nat) : List REvent :=
  [REvent.statusLine code]

/-- Embedding of `CORSHTTPRequestHandler.do_OPTIONS` (lines 15-17):
`send_response(200)` followed by `end_headers`, nothing else. -/
def do_OPTIONS : List REvent :=
  send_response 200 ++ end_headers_CORS

/-- A request as the handler sees it. -/
structure Request where
  method : String
  path : String
  deriving DecidableEq

/-- A snapshot of the served directory tree: request paths mapped to file
bytes.  A directory is represented by the files under it, e.g. a root
directory with an index page holds an entry for the path /index.html. -/
structure FS where
  files : List (String × Bytes)
  deriving DecidableEq

/-- Look a path up in the file tree. -/
def FS.lookup (fs : FS) (p : String) : Option Bytes :=
  (fs.files.find? (fun q => q.1 == p)).map (fun q => q.2)

/-- Whether `post` is a suffix of `s`, computed on the character lists. -/
def strEndsWith (s post : String) : Bool :=
  post.data.isSuffixOf s.data

/-- Modelled from the spec: path resolution of the standard static-file
logic rooted at the working directory (`SimpleHTTPRequestHandler` is not in
src/) - a request for a directory is served through its index.html, any
other path is served when a file of that name exists, otherwise the path
does not resolve. -/
def resolvePath (fs : FS) (p : String) : Option Bytes :=
  if strEndsWith p "/" then fs.lookup (p ++ "index.html") else fs.lookup p

/-- Modelled from the spec: MIME-type inference of the static-file logic;
the spec leaves the exact table an implementation detail. -/
def contentType (p : String) : String :=
  if strEndsWith p "/" || strEndsWith p ".html" then "text/html"
  else "application/octet-stream"

/-- Modelled from the spec: the library's HTML error page for an error
status; its exact markup is an implementation detail, abstracted here as
the status code itself. -/
def errorPage (code : Nat) : Bytes :=
  [code]

/-- Modelled from the spec: GET of the base handler - resolve the path,
answer 200 with the file bytes and inferred content type, or 404 with the
library error page.  `eh` is the dynamically dispatched `end_headers` of
the handler instance. -/
def base_do_GET (eh : List REvent) (fs : FS) (p : String) : List REvent :=
  match resolvePath fs p with
  | some bs =>
      send_response 200 ++ [REvent.header "Content-Type" (contentType p)]
        ++ eh ++ [REvent.body bs]
  | none =>
      send_response 404 ++ [REvent.header "Content-Type" "text/html"]
        ++ eh ++ [REvent.body (errorPage 404)]

/-- Modelled from the spec: HEAD of the base handler - as GET but without
body bytes. -/
def base_do_HEAD (eh : List REvent) (fs : FS) (p : String) : List REvent :=
  match resolvePath fs p with
  | some _ =>
      send_response 200 ++ [REvent.header "Content-Type" (contentType p)] ++ eh
  | none =>
      send_response 404 ++ [REvent.header "Content-Type" "text/html"] ++ eh

/-- Modelled from the spec: method dispatch of the base handler for
non-OPTIONS methods - GET and HEAD serve files, any other method gets the
library's 501 error response.  Every path finishes the header block through
the dispatched `end_headers` `eh`. -/
def base_handle (eh : List REvent) (fs : FS) (req : Request) : List REvent :=
  if req.method == "GET" then base_do_GET eh fs req.path
  else if req.method == "HEAD" then base_do_HEAD eh fs req.path
  else send_response 501 ++ [REvent.header "Content-Type" "text/html"]
    ++ eh ++ [REvent.body (errorPage 501)]

/-- Embedding of request dispatch for `CORSHTTPRequestHandler`: OPTIONS is
answered by the override `do_OPTIONS` (lines 15-17); every other method is
inherited from the base class, with the overridden `end_headers`
(lines 9-13) dispatched dynamically. -/
def handleRequest (fs : FS) (req : Request) : List REvent :=
  if req.method == "OPTIONS" then do_OPTIONS
  else base_handle end_headers_CORS fs req

/-- The name/value pairs of the header events of a response, in order. -/
def headersOf (t : List REvent) : List (String × String) :=
  t.filterMap (fun e => match e with
    | REvent.header n v => some (n, v)
    | _ => none)

/-- The first status line of a response. -/
def statusOf (t : List REvent) : Option Nat :=
  t.findSome? (fun e => match e with
    | REvent.statusLine c => some c
    | _ => none)

/-- All body bytes of a response, in order. -/
def bodyOf (t : List REvent) : Bytes :=
  (t.map (fun e => match e with
    | REvent.body bs => bs
    | _ => [])).flatten

/-- The events written before any body bytes. -/
def preBody (t : List REvent) : List REvent :=
  t.takeWhile (fun e => match e with
    | REvent.body _ => false
    | _ => true)

/-- The three CORS headers all occur in the response, before any body
bytes are written. -/
def hasCORS (t : List REvent) : Prop :=
  ∀ p ∈ corsHeaders, REvent.header p.1 p.2 ∈ preBody t

instance (t : List REvent) : Decidable (hasCORS t) := by
  unfold hasCORS; infer_instance

/-- The facts about the environment that `main` observes: existence of the
two certificate files (line 26), whether `load_cert_chain` accepts the pair
(line 37; false models a malformed or unreadable pair), and whether a
KeyboardInterrupt arrives while `serve_forever` runs (lines 47-49). -/
structure World where
  certExists : Bool
  keyExists : Bool
  certValid : Bool
  interrupted : Bool
  deriving DecidableEq

/-- One observable action of `main`. -/
inductive Action where
  | print (s : String)
  | exitProcess (code : Nat)
  | bindSocket (port : Nat)
  | createTLSContext
  | loadCertChain (cert key : String)
  | raiseUncaught (exn : String)
  | wrapSocketTLS
  | serveForever
  | stopAccepting
  | closeListener
  | freeTLSContext
  deriving DecidableEq, Repr

/-- The fixed port, line 20 of src/https-server.py. -/
def port : Nat := 3000

/-- The startup banner of line 42, with the f-string interpolation made
explicit. -/
def banner (p : Nat) : String :=
  "HTTPS server starting on https://localhost:" ++ toString p ++ "/"

/-- A server-side TLS context.  Modelled from the spec:
`ssl.SSLContext(ssl.PROTOCOL_TLS_SERVER)` (line 36, `ssl` is not in src/)
builds a server-side context for a TLS 1.2+ endpoint; the minimum protocol
version is stored in tenths (12 stands for TLS 1.2). -/
structure TLSContext where
  serverSide : Bool
  minVersionTenths : Nat
  deriving DecidableEq

/-- The context `main` builds at line 36. -/
def mkServerContext : TLSContext :=
  { serverSide := true, minVersionTenths := 12 }

/-- Embedding of `main` (src/https-server.py lines 19-51) as the sequence
of observable actions it performs, as a function of the environment.
`HTTPServer(server_address, ...)` at line 33 binds and starts listening,
hence the bind action before the TLS steps.  Two interpreter behaviors not
in src/ are modelled from the spec: an uncaught `load_cert_chain` failure
ends the process with a traceback (`raiseUncaught`), and returning from
`main` after the except block ends the process with status 0.
`httpd.shutdown()` at line 51 stops the accept loop (`stopAccepting`); the
source never calls `server_close` or discards the context, so no
`closeListener` or `freeTLSContext` action ever occurs. -/
def main_trace (w : World) : List Action :=
  if !w.certExists || !w.keyExists then
    [Action.print "SSL certificates not found!",
     Action.print "Please run ./generate-ssl.sh first to create SSL certificates.",
     Action.exitProcess 1]
  else
    [Action.bindSocket port,
     Action.createTLSContext,
     Action.loadCertChain "ssl/server.crt" "ssl/server.key"] ++
    if !w.certValid then
      [Action.raiseUncaught "ssl.SSLError"]
    else
      [Action.wrapSocketTLS,
       Action.print (banner port),
       Action.print "Note: Your browser will show a security warning for the self-signed certificate.",
       Action.print "Click \x27Advanced\x27 then \x27Proceed to localhost (unsafe)\x27 to continue.",
       Action.print "Press Ctrl+C to stop the server",
       Action.serveForever] ++
      if w.interrupted then
        [Action.print "\nServer stopped",
         Action.stopAccepting,
         Action.exitProcess 0]
      else []

/-- C1: every response the handler emits, for every HTTP method and every
request path — success, 404 and 500-class error responses alike — carries
the three CORS headers with their exact literal values, and they are
written before any body bytes. -/
theorem c1_cors_on_every_response (fs : FS) (req : Request) :
    hasCORS (handleRequest fs req) := by
  unfold handleRequest base_handle base_do_GET base_do_HEAD
  repeat' split
  all_goals
    simp [hasCORS, corsHeaders, preBody, do_OPTIONS, send_response,
      end_headers_CORS, errorPage, List.takeWhile]

/-- C2: for every OPTIONS request, whatever the path and the file tree,
the header set of the response is exactly the three CORS headers, in
order, and nothing else. -/
theorem c2_options_headers_exact (fs : FS) (req : Request)
    (h : req.method = "OPTIONS") :
    headersOf (handleRequest fs req) = corsHeaders := by
  simp [handleRequest, h, do_OPTIONS, send_response, end_headers_CORS,
    headersOf, corsHeaders]

/-- Witness for C2 at a concrete OPTIONS request against an empty tree. -/
theorem c2_options_headers_exact_witness :
    headersOf (handleRequest ⟨[]⟩ ⟨"OPTIONS", "/anything"⟩) = corsHeaders :=
  c2_options_headers_exact ⟨[]⟩ ⟨"OPTIONS", "/anything"⟩ rfl

/-- C3: an OPTIONS request is answered with status 200 and an empty body,
and the response is identical for every file-system state: producing it
involves no file-system access. -/
theorem c3_options_no_fs_access (fs fs2 : FS) (req : Request)
    (h : req.method = "OPTIONS") :
    statusOf (handleRequest fs req) = some 200 ∧
    bodyOf (handleRequest fs req) = [] ∧
    handleRequest fs req = handleRequest fs2 req := by
  simp [handleRequest, h, do_OPTIONS, send_response, end_headers_CORS,
    statusOf, bodyOf]

/-- Witness for C3: two different file trees, a path that exists in one of
them, same OPTIONS response with status 200 and empty body. -/
theorem c3_options_no_fs_access_witness :
    statusOf (handleRequest ⟨[]⟩ ⟨"OPTIONS", "/index.html"⟩) = some 200 ∧
    bodyOf (handleRequest ⟨[]⟩ ⟨"OPTIONS", "/index.html"⟩) = [] ∧
    handleRequest ⟨[]⟩ ⟨"OPTIONS", "/index.html"⟩
      = handleRequest ⟨[("/index.html", [1, 2])]⟩ ⟨"OPTIONS", "/index.html"⟩ :=
  c3_options_no_fs_access ⟨[]⟩ ⟨[("/index.html", [1, 2])]⟩
    ⟨"OPTIONS", "/index.html"⟩ rfl

/-- C5: every non-OPTIONS request is delegated to the static-file logic
with the CORS `end_headers` installed; in particular GET on the root of a
tree whose root directory holds an index.html returns its bytes with
status 200, GET on a path that does not resolve returns 404, and both
responses carry the CORS headers. -/
theorem c5_static_delegation (fs : FS) (idx : Bytes) (missing : String)
    (hidx : resolvePath fs "/" = some idx)
    (hmiss : resolvePath fs missing = none) :
    (∀ req : Request, req.method ≠ "OPTIONS" →
        handleRequest fs req = base_handle end_headers_CORS fs req) ∧
    (statusOf (handleRequest fs ⟨"GET", "/"⟩) = some 200 ∧
     bodyOf (handleRequest fs ⟨"GET", "/"⟩) = idx ∧
     hasCORS (handleRequest fs ⟨"GET", "/"⟩) ∧
     statusOf (handleRequest fs ⟨"GET", missing⟩) = some 404 ∧
     hasCORS (handleRequest fs ⟨"GET", missing⟩)) := by
  refine ⟨fun req hreq => ?_, ?_, ?_, ?_, ?_, ?_⟩
  · simp [handleRequest, hreq]
  all_goals
    simp [handleRequest, base_handle, base_do_GET, hidx, hmiss, statusOf,
      bodyOf, hasCORS, corsHeaders, preBody, send_response,
      end_headers_CORS, errorPage, List.takeWhile]

/-- Witness for C5: a tree holding only /index.html with bytes 104 105,
and the missing path /does-not-exist. -/
theorem c5_static_delegation_witness :
    resolvePath ⟨[("/index.html", [104, 105])]⟩ "/" = some [104, 105] ∧
    resolvePath ⟨[("/index.html", [104, 105])]⟩ "/does-not-exist" = none ∧
    (statusOf (handleRequest ⟨[("/index.html", [104, 105])]⟩ ⟨"GET", "/"⟩)
        = some 200 ∧
     bodyOf (handleRequest ⟨[("/index.html", [104, 105])]⟩ ⟨"GET", "/"⟩)
        = [104, 105] ∧
     hasCORS (handleRequest ⟨[("/index.html", [104, 105])]⟩ ⟨"GET", "/"⟩) ∧
     statusOf (handleRequest ⟨[("/index.html", [104, 105])]⟩
        ⟨"GET", "/does-not-exist"⟩) = some 404 ∧
     hasCORS (handleRequest ⟨[("/index.html", [104, 105])]⟩
        ⟨"GET", "/does-not-exist"⟩)) :=
  ⟨by decide, by decide,
   (c5_static_delegation ⟨[("/index.html", [104, 105])]⟩ [104, 105]
      "/does-not-exist" (by decide) (by decide)).2⟩

/-- C4: when the certificate file or the key file is missing, startup
prints exactly the two guidance lines and exits with status 1, and no
socket is ever bound on any port; the listener is bound precisely when
both files exist. -/
theorem c4_startup_precondition (w : World) :
    ((w.certExists = false ∨ w.keyExists = false) →
      main_trace w =
        [Action.print "SSL certificates not found!",
         Action.print "Please run ./generate-ssl.sh first to create SSL certificates.",
         Action.exitProcess 1] ∧
      ∀ p : Nat, Action.bindSocket p ∉ main_trace w) ∧
    (w.certExists = true → w.keyExists = true →
      Action.bindSocket 3000 ∈ main_trace w) := by
  rcases w with ⟨ce, ke, cv, ir⟩
  cases ce <;> cases ke <;> cases cv <;> cases ir <;>
    simp [main_trace, port, banner]

/-- Witness for C4: a missing certificate yields the guided exit, both
files present yield the bound listener. -/
theorem c4_startup_precondition_witness :
    main_trace ⟨false, true, true, false⟩ =
      [Action.print "SSL certificates not found!",
       Action.print "Please run ./generate-ssl.sh first to create SSL certificates.",
       Action.exitProcess 1] ∧
    Action.bindSocket 3000 ∈ main_trace ⟨true, true, true, true⟩ :=
  ⟨((c4_startup_precondition ⟨false, true, true, false⟩).1 (Or.inl rfl)).1,
   (c4_startup_precondition ⟨true, true, true, true⟩).2 rfl rfl⟩

/-- C6: a KeyboardInterrupt during the accept loop makes the process print
the shutdown notice, stop accepting connections, and terminate with exit
status 0 as its final action. -/
theorem c6_interrupt_clean_exit (w : World)
    (hc : w.certExists = true) (hk : w.keyExists = true)
    (hv : w.certValid = true) (hi : w.interrupted = true) :
    Action.print "\nServer stopped" ∈ main_trace w ∧
    Action.stopAccepting ∈ main_trace w ∧
    (main_trace w).getLast? = some (Action.exitProcess 0) := by
  rcases w with ⟨ce, ke, cv, ir⟩
  revert hc hk hv hi
  cases ce <;> cases ke <;> cases cv <;> cases ir <;> decide

/-- Witness for C6 in the interrupted world. -/
theorem c6_interrupt_clean_exit_witness :
    Action.print "\nServer stopped" ∈ main_trace ⟨true, true, true, true⟩ ∧
    Action.stopAccepting ∈ main_trace ⟨true, true, true, true⟩ ∧
    (main_trace ⟨true, true, true, true⟩).getLast?
      = some (Action.exitProcess 0) :=
  c6_interrupt_clean_exit ⟨true, true, true, true⟩ rfl rfl rfl rfl

/-- C7 as stated is false: on a clean interrupt the process never performs
an action that releases the listening socket or the TLS context - `main`
calls `httpd.shutdown()` but never `server_close`, and the context is
never discarded before the process ends. -/
theorem c7_release_counterexample :
    ¬ (Action.closeListener ∈ main_trace ⟨true, true, true, true⟩ ∧
       Action.freeTLSContext ∈ main_trace ⟨true, true, true, true⟩) := by
  decide

/-- C7 amended: on interrupt the shutdown path stops accepting new
connections and the process then exits cleanly, but neither the listening
socket nor the TLS context is released by an explicit action of the
shutdown path; they are reclaimed only by process termination. -/
theorem c7_shutdown_releases_nothing (w : World)
    (hc : w.certExists = true) (hk : w.keyExists = true)
    (hv : w.certValid = true) (hi : w.interrupted = true) :
    Action.stopAccepting ∈ main_trace w ∧
    Action.closeListener ∉ main_trace w ∧
    Action.freeTLSContext ∉ main_trace w ∧
    (main_trace w).getLast? = some (Action.exitProcess 0) := by
  rcases w with ⟨ce, ke, cv, ir⟩
  revert hc hk hv hi
  cases ce <;> cases ke <;> cases cv <;> cases ir <;> decide

/-- Witness for the amended C7 in the interrupted world. -/
theorem c7_shutdown_releases_nothing_witness :
    Action.stopAccepting ∈ main_trace ⟨true, true, true, true⟩ ∧
    Action.closeListener ∉ main_trace ⟨true, true, true, true⟩ ∧
    Action.freeTLSContext ∉ main_trace ⟨true, true, true, true⟩ ∧
    (main_trace ⟨true, true, true, true⟩).getLast?
      = some (Action.exitProcess 0) :=
  c7_shutdown_releases_nothing ⟨true, true, true, true⟩ rfl rfl rfl rfl

/-- C8: after a successful startup the trace binds port 3000, loads the
certificate pair into the server-side TLS 1.2+ context, and wraps the
listener in it strictly before the accept loop starts, so connections are
TLS-negotiated before any HTTP parsing. -/
theorem c8_tls_before_accept (w : World)
    (hc : w.certExists = true) (hk : w.keyExists = true)
    (hv : w.certValid = true) :
    Action.bindSocket 3000 ∈ main_trace w ∧
    Action.loadCertChain "ssl/server.crt" "ssl/server.key" ∈ main_trace w ∧
    Action.wrapSocketTLS ∈ main_trace w ∧
    Action.serveForever ∈ main_trace w ∧
    List.indexOf Action.wrapSocketTLS (main_trace w)
      < List.indexOf Action.serveForever (main_trace w) ∧
    mkServerContext.serverSide = true ∧
    12 ≤ mkServerContext.minVersionTenths := by
  rcases w with ⟨ce, ke, cv, ir⟩
  revert hc hk hv
  cases ce <;> cases ke <;> cases cv <;> cases ir <;> decide

/-- Witness for C8 in the non-interrupted good world. -/
theorem c8_tls_before_accept_witness :
    Action.bindSocket 3000 ∈ main_trace ⟨true, true, true, false⟩ ∧
    Action.loadCertChain "ssl/server.crt" "ssl/server.key"
      ∈ main_trace ⟨true, true, true, false⟩ ∧
    Action.wrapSocketTLS ∈ main_trace ⟨true, true, true, false⟩ ∧
    Action.serveForever ∈ main_trace ⟨true, true, true, false⟩ ∧
    List.indexOf Action.wrapSocketTLS (main_trace ⟨true, true, true, false⟩)
      < List.indexOf Action.serveForever (main_trace ⟨true, true, true, false⟩) ∧
    mkServerContext.serverSide = true ∧
    12 ≤ mkServerContext.minVersionTenths :=
  c8_tls_before_accept ⟨true, true, true, false⟩ rfl rfl rfl

/-- C9: the port is fixed at 3000, and after a successful startup the
banner is printed and contains the literal string https://localhost:3000/
(shown by writing the banner as an append around that literal). -/
theorem c9_banner_url (w : World)
    (hc : w.certExists = true) (hk : w.keyExists = true)
    (hv : w.certValid = true) :
    port = 3000 ∧
    Action.print (banner port) ∈ main_trace w ∧
    banner port = "HTTPS server starting on " ++ "https://localhost:3000/" ++ "" := by
  rcases w with ⟨ce, ke, cv, ir⟩
  revert hc hk hv
  cases ce <;> cases ke <;> cases cv <;> cases ir <;> decide

/-- Witness for C9 in the non-interrupted good world. -/
theorem c9_banner_url_witness :
    port = 3000 ∧
    Action.print (banner port) ∈ main_trace ⟨true, true, true, false⟩ ∧
    banner port = "HTTPS server starting on " ++ "https://localhost:3000/" ++ "" :=
  c9_banner_url ⟨true, true, true, false⟩ rfl rfl rfl

/-- C10: when both certificate files exist but the pair cannot be loaded,
the whole trace is: bind port 3000, create the context, attempt
`load_cert_chain`, and die of the uncaught exception - the port is bound
before the failure, and neither the guided message nor the exit-1 action
of the missing-file path occurs. -/
theorem c10_invalid_pair_after_bind (w : World)
    (hc : w.certExists = true) (hk : w.keyExists = true)
    (hv : w.certValid = false) :
    main_trace w =
      [Action.bindSocket 3000,
       Action.createTLSContext,
       Action.loadCertChain "ssl/server.crt" "ssl/server.key",
       Action.raiseUncaught "ssl.SSLError"] ∧
    Action.exitProcess 1 ∉ main_trace w ∧
    Action.print "SSL certificates not found!" ∉ main_trace w := by
  rcases w with ⟨ce, ke, cv, ir⟩
  revert hc hk hv
  cases ce <;> cases ke <;> cases cv <;> cases ir <;> decide

/-- Witness for C10 with an invalid pair. -/
theorem c10_invalid_pair_after_bind_witness :
    main_trace ⟨true, true, false, false⟩ =
      [Action.bindSocket 3000,
       Action.createTLSContext,
       Action.loadCertChain "ssl/server.crt" "ssl/server.key",
       Action.raiseUncaught "ssl.SSLError"] ∧
    Action.exitProcess 1 ∉ main_trace ⟨true, true, false, false⟩ ∧
    Action.print "SSL certificates not found!"
      ∉ main_trace ⟨true, true, false, false⟩ :=
  c10_invalid_pair_after_bind ⟨true, true, false, false⟩ rfl rfl rfl

end TwinSpark
